import Mathlib

/-!
Verification of the payment-gateway-proxy decision pipeline.

The development shallowly embeds the TypeScript sources:
- `src/config/fraudRules.ts` (rule catalog and provider thresholds)
- `src/services/riskAssessment.ts` (`RiskAssessmentService.calculateRisk`)
- `src/services/paymentRouter.ts` (`PaymentRouterService.routePayment`,
  `PaymentRouterService.simulatePayment`)
- `src/services/transactionDataService.ts` (`TransactionDataService`)
- `src/services/geminiService.ts` (`GeminiService`)
- `src/controllers/paymentController.ts` (`PaymentController.charge`)

JavaScript numbers are embedded as `JsNum` (rationals plus NaN and the two
infinities) so that the runtime semantics of `+`, `<`, `Math.min`, `Math.max`
— including their NaN propagation and the fact that adding `undefined` to a
number yields NaN — are captured exactly where the sources depend on them.
Randomness (`Math.random()`) and the awaited outcome of the external
generative-text call are passed as explicit parameters.
-/

namespace PaymentGateway

/-- A JavaScript `number` as the sources use it: NaN, the two infinities, or a
finite value (modelled as a rational; every literal in the sources is a
decimal fraction, exactly representable). -/
inductive JsNum where
  | nan : JsNum
  | posInf : JsNum
  | negInf : JsNum
  | num : ℚ → JsNum
deriving DecidableEq, Repr

/-- JavaScript strict less-than `<` on numbers: any comparison involving NaN
is false; `-Infinity` is below every non-NaN value; `Infinity` is below
nothing. -/
def jsLt : JsNum → JsNum → Bool
  | .nan, _ => false
  | _, .nan => false
  | .posInf, _ => false
  | .negInf, .negInf => false
  | .negInf, _ => true
  | .num _, .posInf => true
  | .num _, .negInf => false
  | .num a, .num b => a < b

/-- JavaScript `+` on numbers: NaN is absorbing, `Infinity + -Infinity` is
NaN, otherwise the infinities absorb and finite values add. -/
def jsAdd : JsNum → JsNum → JsNum
  | .nan, _ => .nan
  | _, .nan => .nan
  | .posInf, .negInf => .nan
  | .negInf, .posInf => .nan
  | .posInf, _ => .posInf
  | _, .posInf => .posInf
  | .negInf, _ => .negInf
  | _, .negInf => .negInf
  | .num a, .num b => .num (a + b)

/-- JavaScript `Math.min`: returns NaN if either argument is NaN. -/
def jsMin : JsNum → JsNum → JsNum
  | .nan, _ => .nan
  | _, .nan => .nan
  | .negInf, _ => .negInf
  | _, .negInf => .negInf
  | .posInf, b => b
  | a, .posInf => a
  | .num a, .num b => .num (min a b)

/-- JavaScript `Math.max`: returns NaN if either argument is NaN. -/
def jsMax : JsNum → JsNum → JsNum
  | .nan, _ => .nan
  | _, .nan => .nan
  | .posInf, _ => .posInf
  | _, .posInf => .posInf
  | .negInf, b => b
  | a, .negInf => a
  | .num a, .num b => .num (max a b)

/-- JavaScript `x + y` where `y` is a possibly-`undefined` number property
(`none` = the property is absent / `undefined`): `number + undefined` is NaN. -/
def jsAddOpt : JsNum → Option JsNum → JsNum
  | _, none => .nan
  | x, some y => jsAdd x y

/-- `ChargeRequest` from `src/types`: `{amount, currency, source, email}`.
A validated request's `amount` is a finite number, so it is embedded as `ℚ`. -/
structure ChargeRequest where
  amount : ℚ
  currency : String
  source : String
  email : String
deriving DecidableEq, Repr

/-- `needle` is a prefix of `hay` (on character lists). -/
def charsStartsWith : List Char → List Char → Bool
  | _, [] => true
  | [], _ :: _ => false
  | h :: hs, n :: ns => h = n && charsStartsWith hs ns

/-- `needle` occurs contiguously in `hay` (on character lists). -/
def charsIncludes : List Char → List Char → Bool
  | [], needle => needle.isEmpty
  | h :: t, needle => charsStartsWith (h :: t) needle || charsIncludes t needle

/-- JavaScript `String.prototype.includes`: contiguous-substring containment
(true for the empty needle). -/
def strIncludes (hay needle : String) : Bool :=
  charsIncludes hay.toList needle.toList

/-- JavaScript `String.prototype.toLowerCase`, on the ASCII strings the
sources and tests use. -/
def strToLower (s : String) : String :=
  String.mk (s.toList.map Char.toLower)

/-- JavaScript regex `\s` (whitespace class), restricted to the ASCII
whitespace characters that can occur in the sources and tests. -/
def jsIsSpace (c : Char) : Bool :=
  c = ' ' || c = '\t' || c = '\n' || c = '\r' || c = '\x0b' || c = '\x0c'

/-- One character of the `[^\s@]` class in the email regex of
`src/config/fraudRules.ts`: not whitespace and not `@`. -/
def emailSegChar (c : Char) : Bool :=
  !jsIsSpace c && c != '@'

/-- The test `/^[^\s@]+@[^\s@]+\.[^\s@]+$/.test(email)` from the
`Invalid Email Format` rule in `src/config/fraudRules.ts`. The regex matches
exactly the strings of the form `local ++ "@" ++ rest` where `local` is a
non-empty run of `[^\s@]` characters and `rest` is a non-empty run of
`[^\s@]` characters containing a `.` that is neither its first nor its last
character (the `[^\s@]+ "." [^\s@]+` decomposition). Since `[^\s@]` excludes
`@`, the string must contain exactly one `@`, so splitting on `@` is exact. -/
def emailRegexTest (email : String) : Bool :=
  match email.toList.splitOn '@' with
  | [localPart, rest] =>
      localPart ≠ [] && localPart.all emailSegChar &&
      rest.all emailSegChar && ((rest.drop 1).dropLast).contains '.'
  | _ => false

/-- `FraudRule` as the runtime objects built in `src/config/fraudRules.ts`
carry it. The object literals there assign `ruleName`, `weight` and
`condition`; the declared type in `src/types` names the numeric field
`riskScore`, which the literals never assign, so reading `rule.riskScore`
(as `RiskAssessmentService.calculateRisk` does) yields `undefined` — embedded
as the `Option JsNum` field `riskScore`, which is `none` on every catalog
rule. -/
structure FraudRule where
  ruleName : String
  weight : ℚ
  riskScore : Option JsNum
  condition : ChargeRequest → Bool

/-- The `Large Amount` rule of `src/config/fraudRules.ts`:
`request.amount > 50000 && request.amount < 100000`, weight 0.3. -/
def largeAmountRule : FraudRule where
  ruleName := "Large Amount"
  weight := 3/10
  riskScore := none
  condition := fun request => request.amount > 50000 && request.amount < 100000

/-- The `Very Large Amount` rule: `request.amount > 100000`, weight 0.4. -/
def veryLargeAmountRule : FraudRule where
  ruleName := "Very Large Amount"
  weight := 2/5
  riskScore := none
  condition := fun request => request.amount > 100000

/-- The suspicious substrings checked by the `Suspicious Domain` rule. -/
def suspiciousDomains : List String :=
  [".ru", ".tk", ".ml", "test.com", "10minutemail", "mailinator"]

/-- The `Suspicious Domain` rule:
`suspiciousDomains.some(d => request.email.toLowerCase().includes(d))`,
weight 0.4. -/
def suspiciousDomainRule : FraudRule where
  ruleName := "Suspicious Domain"
  weight := 2/5
  riskScore := none
  condition := fun request =>
    suspiciousDomains.any fun domain => strIncludes (strToLower request.email) domain

/-- The `Invalid Email Format` rule: `!emailRegex.test(request.email)`,
weight 0.2. -/
def invalidEmailFormatRule : FraudRule where
  ruleName := "Invalid Email Format"
  weight := 1/5
  riskScore := none
  condition := fun request => !emailRegexTest request.email

/-- The `Test Token` rule: `request.source.includes('test')`, weight 0.1. -/
def testTokenRule : FraudRule where
  ruleName := "Test Token"
  weight := 1/10
  riskScore := none
  condition := fun request => strIncludes request.source "test"

/-- The ordered rule catalog `fraudRules` of `src/config/fraudRules.ts`. -/
def fraudRules : List FraudRule :=
  [largeAmountRule, veryLargeAmountRule, suspiciousDomainRule,
   invalidEmailFormatRule, testTokenRule]

/-- `RiskAssessmentResult` from `src/types`. The score is a `JsNum` because
`calculateRisk` computes it with JavaScript number arithmetic. -/
structure RiskAssessmentResult where
  score : JsNum
  triggeredRules : List String
deriving DecidableEq, Repr

/-- `RiskAssessmentService.calculateRisk` from
`src/services/riskAssessment.ts`: iterate the catalog in order; for each rule
whose `condition` holds, execute `totalScore += rule.riskScore` (JavaScript
semantics — the `riskScore` property is `undefined` on the catalog objects,
so this addition produces NaN) and push the rule name; finally
`score = Math.min(totalScore, 1.0)`. -/
def calculateRisk (request : ChargeRequest) : RiskAssessmentResult :=
  let acc := fraudRules.foldl
    (fun (acc : JsNum × List String) rule =>
      if rule.condition request then
        (jsAddOpt acc.1 rule.riskScore, acc.2 ++ [rule.ruleName])
      else acc)
    (JsNum.num 0, [])
  { score := jsMin acc.1 (JsNum.num 1), triggeredRules := acc.2 }

/-- `PaymentProvider` from `src/types`: `'stripe' | 'paypal'`. -/
inductive PaymentProvider where
  | stripe : PaymentProvider
  | paypal : PaymentProvider
deriving DecidableEq, Repr

/-- Settings of one provider in `providerConfig`. -/
structure ProviderSettings where
  name : String
  maxRiskScore : ℚ
deriving DecidableEq, Repr

/-- The `providerConfig` record of `src/config/fraudRules.ts`. -/
structure ProviderConfigT where
  stripe : ProviderSettings
  paypal : ProviderSettings
deriving DecidableEq, Repr

/-- `providerConfig`: Stripe accepts scores below 0.4, PayPal below 0.5. -/
def providerConfig : ProviderConfigT where
  stripe := { name := "Stripe", maxRiskScore := 2/5 }
  paypal := { name := "PayPal", maxRiskScore := 1/2 }

/-- `PaymentRouterService.routePayment` from `src/services/paymentRouter.ts`:
stripe if `riskScore < providerConfig.stripe.maxRiskScore`, else paypal if
`riskScore < providerConfig.paypal.maxRiskScore`, else `null` (blocked). -/
def routePayment (riskScore : JsNum) : Option PaymentProvider :=
  if jsLt riskScore (JsNum.num providerConfig.stripe.maxRiskScore) then
    some PaymentProvider.stripe
  else if jsLt riskScore (JsNum.num providerConfig.paypal.maxRiskScore) then
    some PaymentProvider.paypal
  else
    none

/-- `PaymentRouterService.simulatePayment` from
`src/services/paymentRouter.ts`: ignores its provider argument, clamps the
success rate to [0,1] via `Math.max(0, Math.min(1, successRate))`, and
returns `randomValue < validSuccessRate` where `randomValue` is the
`Math.random()` draw, passed here as an explicit parameter. -/
def simulatePayment (_provider : PaymentProvider) (successRate : JsNum)
    (randomValue : ℚ) : Bool :=
  let validSuccessRate := jsMax (JsNum.num 0) (jsMin (JsNum.num 1) successRate)
  jsLt (JsNum.num randomValue) validSuccessRate

/-- JavaScript `<=` on numbers: any comparison involving NaN is false. -/
def jsLe : JsNum → JsNum → Bool
  | .nan, _ => false
  | _, .nan => false
  | .negInf, _ => true
  | _, .negInf => false
  | _, .posInf => true
  | .posInf, _ => false
  | .num a, .num b => a ≤ b

/-- Rendering of a number inside a JavaScript template literal. NaN and the
infinities render exactly as JavaScript renders them; finite values use the
rational's canonical rendering (the exact decimal spelling is immaterial to
the properties proved here — only determinism and branch structure matter). -/
def jsNumToString : JsNum → String
  | .nan => "NaN"
  | .posInf => "Infinity"
  | .negInf => "-Infinity"
  | .num q => toString q

/-- `TransactionStatus` from `src/types`: `'success' | 'blocked' | 'error'`. -/
inductive TransactionStatus where
  | success : TransactionStatus
  | blocked : TransactionStatus
  | error : TransactionStatus
deriving DecidableEq, Repr

/-- `ChargeResponse` from `src/types`. -/
structure ChargeResponse where
  transactionId : String
  provider : Option PaymentProvider
  status : TransactionStatus
  riskScore : JsNum
  explanation : String
deriving DecidableEq, Repr

/-- The `metadata` object built by `PaymentController.charge`
(`{ipAddress, userAgent}`, both possibly absent). -/
structure TransactionMetadata where
  ipAddress : Option String
  userAgent : Option String
deriving DecidableEq, Repr

/-- `Transaction` from `src/types`; the `Date` timestamp is embedded as an
integer epoch value. -/
structure Transaction where
  id : String
  timestamp : ℤ
  request : ChargeRequest
  response : ChargeResponse
  metadata : TransactionMetadata
deriving DecidableEq, Repr

/-- The backing store of `TransactionDataService`
(`src/services/transactionDataService.ts`): a JavaScript
`Map<string, Transaction>`, embedded as its insertion-ordered list of
key–value entries with pairwise-distinct keys. -/
abbrev TransactionStore := List (String × Transaction)

/-- `Map.set` semantics: if the key is present, overwrite the entry in place
(preserving insertion order); otherwise append a new entry. -/
def mapSet (store : TransactionStore) (key : String) (value : Transaction) :
    TransactionStore :=
  if store.any (fun entry => entry.1 = key) then
    store.map fun entry => if entry.1 = key then (key, value) else entry
  else
    store ++ [(key, value)]

/-- `TransactionDataService.storeTransaction`:
`this.transactions.set(transaction.id, transaction); return transaction` —
the store update (the returned transaction is the argument itself). -/
def storeTransaction (store : TransactionStore) (transaction : Transaction) :
    TransactionStore :=
  mapSet store transaction.id transaction

/-- `TransactionDataService.getTransactionById`: `this.transactions.get(id)`. -/
def getTransactionById (store : TransactionStore) (id : String) :
    Option Transaction :=
  (store.find? fun entry => entry.1 = id).map Prod.snd

/-- `TransactionDataService.getAllTransactions`:
`Array.from(this.transactions.values())`. -/
def getAllTransactions (store : TransactionStore) : List Transaction :=
  store.map Prod.snd

/-- `TransactionDataService.getTransactionCount`: `this.transactions.size`. -/
def getTransactionCount (store : TransactionStore) : ℕ :=
  store.length

/-- `TransactionDataService.hasTransaction`: `this.transactions.has(id)`. -/
def hasTransaction (store : TransactionStore) (id : String) : Bool :=
  store.any fun entry => entry.1 = id

/-- `TransactionDataService.deleteTransaction`:
`return this.transactions.delete(id)` — yields whether the id was present
together with the store with that entry removed. -/
def deleteTransaction (store : TransactionStore) (id : String) :
    Bool × TransactionStore :=
  (store.any fun entry => entry.1 = id, store.filter fun entry => entry.1 ≠ id)

/-- `TransactionDataService.clearAllTransactions`: `this.transactions.clear()`. -/
def clearAllTransactions (_store : TransactionStore) : TransactionStore :=
  []

/-- `TransactionDataService.getTransactionsByStatus`: filter all transactions
on `transaction.response.status === status`. -/
def getTransactionsByStatus (store : TransactionStore)
    (status : TransactionStatus) : List Transaction :=
  (getAllTransactions store).filter fun transaction =>
    transaction.response.status = status

/-- Modelled from the spec: `formatAmount` (`src/utils/helpers.ts`) delegates
to the external `Intl.NumberFormat` collaborator, which the spec specifies
only as `format(amount, currencyCode) → localized currency string`; the
repository's own tests mock it as the currency code followed by the amount,
which is the deterministic rendering used here. No property proved below
depends on the rendering, only on its determinism. -/
def formatAmount (amount : ℚ) (currency : String) : String :=
  currency ++ toString amount

/-- The string value of a `PaymentProvider` union member. -/
def providerToString : PaymentProvider → String
  | .stripe => "stripe"
  | .paypal => "paypal"

/-- `${provider?.toUpperCase()}` in a template literal: the uppercased
provider string, or the string `undefined` when the provider is `null`. -/
def providerUpperOrUndefined : Option PaymentProvider → String
  | some p => (providerToString p).toUpper
  | none => "undefined"

/-- `${provider}` in a template literal: the provider string, or `null`. -/
def providerOrNull : Option PaymentProvider → String
  | some p => providerToString p
  | none => "null"

/-- `GeminiService.generateSimulatedExplanation` from
`src/services/geminiService.ts`: the deterministic templated fallback,
branching on `status` (blocked / success / error), with the success branch
classifying the risk level via `riskScore <= 0.2 ? 'low' :
riskScore <= 0.3 ? 'minimal' : 'moderate'`. -/
def generateSimulatedExplanation (request : ChargeRequest) (riskScore : JsNum)
    (provider : Option PaymentProvider) (status : TransactionStatus)
    (triggeredRules : List String) : String :=
  let amountFormatted := formatAmount request.amount request.currency
  match status with
  | .blocked =>
      let explanation :=
        "Transaction blocked due to elevated risk score of " ++
          jsNumToString riskScore ++ ". "
      let explanation :=
        if triggeredRules.length > 0 then
          explanation ++ "Risk factors detected: " ++
            String.intercalate ", " triggeredRules ++ ". "
        else explanation
      explanation ++ "The " ++ amountFormatted ++
        " payment exceeded our risk tolerance thresholds. Please verify transaction details and consider alternative payment methods."
  | .success =>
      let riskLevel :=
        if jsLe riskScore (JsNum.num (1/5)) then "low"
        else if jsLe riskScore (JsNum.num (3/10)) then "minimal"
        else "moderate"
      let explanation :=
        "Payment of " ++ amountFormatted ++ " successfully processed through " ++
          providerUpperOrUndefined provider ++ " with " ++ riskLevel ++
          " risk assessment (" ++ jsNumToString riskScore ++ "). "
      let explanation :=
        if triggeredRules.length > 0 then
          explanation ++ "Some risk indicators were present (" ++
            String.intercalate ", " triggeredRules ++
            ") but remained within acceptable parameters. "
        else explanation
      explanation ++ "Transaction routed to " ++ providerOrNull provider ++
        " based on our risk-optimized processing rules."
  | .error =>
      "Payment processing encountered an issue for the " ++ amountFormatted ++
        " transaction. Risk assessment: " ++ jsNumToString riskScore ++
        ". Our technical team has been notified. Please retry or contact support."

/-- The observable state of a `GeminiService` instance relevant here: how many
times the external generative-text call (`genAI.models.generateContent`, via
the private `generateDescription`) has been issued. -/
structure GeminiState where
  externalCalls : ℕ
deriving DecidableEq, Repr

/-- `GeminiService.generateDescriptionFromTags` from
`src/services/geminiService.ts`, with the effects made explicit:
`clientInitialized` is whether `this.genAI` is non-null, `genOutcome` maps
the index of each external call to its awaited result (`Except.error` = the
awaited `generateDescription` promise rejected, `Except.ok text` = it
resolved, with `text = ""` covering `response?.text || ""`), and the returned
`GeminiState` counts the external calls issued. Control flow of the source:
with a client, issue the external call; on resolution with empty text use the
simulated explanation; on rejection use the simulated explanation when
`config.fallbackToSimulated` is set, otherwise throw
`LLM service unavailable and fallback disabled`; with no client, use the
simulated explanation directly. -/
def generateDescriptionFromTags (fallbackToSimulated : Bool)
    (clientInitialized : Bool) (genOutcome : ℕ → Except Unit String)
    (st : GeminiState) (request : ChargeRequest) (riskScore : JsNum)
    (provider : Option PaymentProvider) (status : TransactionStatus)
    (triggeredRules : List String) : Except String String × GeminiState :=
  if clientInitialized then
    let st' : GeminiState := { externalCalls := st.externalCalls + 1 }
    match genOutcome st.externalCalls with
    | Except.ok text =>
        if text = "" then
          (Except.ok (generateSimulatedExplanation request riskScore provider
            status triggeredRules), st')
        else (Except.ok text, st')
    | Except.error _ =>
        if fallbackToSimulated then
          (Except.ok (generateSimulatedExplanation request riskScore provider
            status triggeredRules), st')
        else (Except.error "LLM service unavailable and fallback disabled", st')
  else
    (Except.ok (generateSimulatedExplanation request riskScore provider status
      triggeredRules), st)

/-- The decision pipeline of `PaymentController.charge`
(`src/controllers/paymentController.ts`) after successful validation, up to
the assembled `ChargeResponse`: risk assessment, routing, outcome simulation
(only when a provider was chosen, with the default 0.9 success rate and the
`Math.random()` draw passed as `randomValue`), then the explanation; a
rejection of the explanation call propagates as the thrown error (caught at
the HTTP boundary), in which case no `ChargeResponse` is produced. -/
def chargePipeline (transactionId : String) (randomValue : ℚ)
    (fallbackToSimulated : Bool) (clientInitialized : Bool)
    (genOutcome : ℕ → Except Unit String) (st : GeminiState)
    (request : ChargeRequest) : Except String ChargeResponse :=
  let riskAssessment := calculateRisk request
  let provider := routePayment riskAssessment.score
  let status : TransactionStatus :=
    match provider with
    | none => TransactionStatus.blocked
    | some p =>
        if simulatePayment p (JsNum.num (9/10)) randomValue then
          TransactionStatus.success
        else TransactionStatus.error
  match (generateDescriptionFromTags fallbackToSimulated clientInitialized
      genOutcome st request riskAssessment.score provider status
      riskAssessment.triggeredRules).1 with
  | Except.ok explanation =>
      Except.ok
        { transactionId := transactionId
          provider := provider
          status := status
          riskScore := riskAssessment.score
          explanation := explanation }
  | Except.error e => Except.error e

/-- The provider bands in their configured order, each with its maximum
acceptable score, for comparison of `routePayment` against the spec's
decision rule. -/
def providerBands : List (PaymentProvider × ℚ) :=
  [(PaymentProvider.stripe, providerConfig.stripe.maxRiskScore),
   (PaymentProvider.paypal, providerConfig.paypal.maxRiskScore)]

/-- The routing decision as the spec words it: the lowest-ordered provider
whose maximum acceptable score strictly exceeds the score; `none` when no
band qualifies. -/
def routePaymentSpec (score : JsNum) : Option PaymentProvider :=
  (providerBands.find? fun band => jsLt score (JsNum.num band.2)).map Prod.fst

/-- The risk score as the spec words it: the minimum of 1.0 and the sum of
the `weight` fields of the rules whose predicates hold. -/
def specWeightScore (request : ChargeRequest) : ℚ :=
  min ((fraudRules.filter fun rule => rule.condition request).foldl
    (fun acc rule => acc + rule.weight) 0) 1

/-- The end-to-end request of claim C1 and of the repository's own
`riskAssessment` test: amount 60,000, card source, benign email. -/
def req60k : ChargeRequest :=
  { amount := 60000, currency := "USD", source := "card_123",
    email := "user@example.com" }

/-- A request with amount 150,000 (above both amount thresholds). -/
def req150k : ChargeRequest :=
  { amount := 150000, currency := "USD", source := "card_123",
    email := "user@example.com" }

/-- A low-risk request triggering no rule. -/
def req1k : ChargeRequest :=
  { amount := 1000, currency := "USD", source := "card_123",
    email := "user@example.com" }

/-- An external-call oracle whose first call resolves with one explanation
and whose later calls resolve with a different one. -/
def genDistinct : ℕ → Except Unit String :=
  fun index =>
    if index = 0 then Except.ok "Explanation A" else Except.ok "Explanation B"

/-- An external-call oracle that always resolves with empty text. -/
def genEmptyText : ℕ → Except Unit String := fun _ => Except.ok ""

/-- An external-call oracle that always resolves with a fixed explanation. -/
def genOk : ℕ → Except Unit String := fun _ => Except.ok "great"

/-- The first of two identical explanation calls against `genDistinct`. -/
def geminiCall1 : Except String String × GeminiState :=
  generateDescriptionFromTags true true genDistinct { externalCalls := 0 }
    req60k (JsNum.num (3/10)) (some PaymentProvider.stripe)
    TransactionStatus.success ["Large Amount"]

/-- The second, identical explanation call, from the state `geminiCall1`
left behind. -/
def geminiCall2 : Except String String × GeminiState :=
  generateDescriptionFromTags true true genDistinct geminiCall1.2
    req60k (JsNum.num (3/10)) (some PaymentProvider.stripe)
    TransactionStatus.success ["Large Amount"]

/-- The concrete response the pipeline produces on `req1k` with the `genOk`
oracle: no rule fires, score 0, routed to stripe, draw 0.5 < 0.9 succeeds. -/
def resp1 : ChargeResponse :=
  { transactionId := "t1", provider := some PaymentProvider.stripe,
    status := TransactionStatus.success, riskScore := JsNum.num 0,
    explanation := "great" }

/-- A concrete stored transaction for the ledger witnesses. -/
def txn1 : Transaction :=
  { id := "txn-123", timestamp := 0, request := req1k, response := resp1,
    metadata := { ipAddress := none, userAgent := none } }

/-- `List.find?` finds a freshly appended entry when no earlier entry has its
key. -/
theorem find?_append_missing (store : TransactionStore) (key : String)
    (value : Transaction)
    (h : store.any (fun entry => entry.1 = key) = false) :
    List.find? (fun entry => entry.1 = key) (store ++ [(key, value)]) =
      some (key, value) := by
  induction store with
  | nil => simp
  | cons head tail ih =>
      simp only [List.any_cons, Bool.or_eq_false_iff] at h
      simp only [List.cons_append, List.find?_cons]
      rw [h.1]
      exact ih h.2

/-- `List.find?` finds the overwritten entry after an in-place update of an
existing key. -/
theorem find?_overwrite (store : TransactionStore) (key : String)
    (value : Transaction)
    (h : store.any (fun entry => entry.1 = key) = true) :
    List.find? (fun entry => entry.1 = key)
      (store.map fun entry => if entry.1 = key then (key, value) else entry) =
      some (key, value) := by
  induction store with
  | nil => simp at h
  | cons head tail ih =>
      by_cases hk : head.1 = key
      · simp only [List.map_cons, if_pos hk, List.find?_cons]
        simp
      · simp only [List.any_cons, Bool.or_eq_true] at h
        rcases h with h | h
        · simp [hk] at h
        · simp only [List.map_cons, if_neg hk, List.find?_cons]
          rw [show (decide (head.1 = key)) = false by simp [hk]]
          exact ih h

/-- `List.find?` finds nothing for a key after all entries with that key are
filtered out. -/
theorem find?_filter_ne (store : TransactionStore) (key : String) :
    List.find? (fun entry => entry.1 = key)
      (store.filter fun entry => entry.1 ≠ key) = none := by
  rw [List.find?_eq_none]
  intro x hx
  have hmem := List.mem_filter.mp hx
  simp only [decide_eq_true_eq] at hmem ⊢
  intro hcontra
  exact absurd hcontra (by simpa using hmem.2)

/-- Evaluation of each catalog rule's predicate on the request of claim C1
(amount 60,000, `card_123`, `user@example.com`): only `Large Amount` fires. -/
theorem conditions_req60k :
    largeAmountRule.condition req60k = true ∧
    veryLargeAmountRule.condition req60k = false ∧
    suspiciousDomainRule.condition req60k = false ∧
    invalidEmailFormatRule.condition req60k = false ∧
    testTokenRule.condition req60k = false := by decide

/-- **C1** — The claim states that for the charge request
`{amount: 60000, source: "card_123", email: "user@example.com"}`,
`calculateRisk` returns score 0.3 with triggered rules `["Large Amount"]` and
`routePayment` then chooses stripe. The code disagrees: `calculateRisk` adds
`rule.riskScore`, a property the rule objects of `fraudRules.ts` never assign
(they assign `weight`), so the triggered rule contributes `undefined`, the
running total becomes NaN, the exposed score is NaN rather than 0.3, and
`routePayment(NaN)` blocks the transaction instead of routing it to stripe.
The triggered-rule list is still `["Large Amount"]`. This contradicts the
repository's own `riskAssessment` test, which expects score 0.3 for exactly
this request — a code bug, exhibited here by evaluating the embedded code. -/
theorem calculateRisk_req60k_nan_blocked :
    (calculateRisk req60k).triggeredRules = ["Large Amount"] ∧
    (calculateRisk req60k).score = JsNum.nan ∧
    (calculateRisk req60k).score ≠ JsNum.num (3/10) ∧
    routePayment (calculateRisk req60k).score = none := by
  refine ⟨by decide, by decide, ?_, by decide⟩
  rw [show (calculateRisk req60k).score = JsNum.nan from by decide]
  simp

/-- **C2** — The claim states that the score returned by `calculateRisk`
always equals `min(1, sum of the weights of the satisfied rules)` and hence
lies in [0,1]. On the request with amount 60,000 the weight sum of the
satisfied rules is 0.3, but the code's score is NaN (it reads the never-
assigned `riskScore` property instead of `weight`), which is neither 0.3 nor
in [0,1] — a code bug contradicting the repository's own tests, exhibited
here by evaluating the embedded code against the spec-side weight sum. -/
theorem calculateRisk_score_differs_from_weightSum :
    specWeightScore req60k = 3/10 ∧
    (calculateRisk req60k).score = JsNum.nan ∧
    (calculateRisk req60k).score ≠ JsNum.num (specWeightScore req60k) := by
  have hspec : specWeightScore req60k = 3/10 := by
    obtain ⟨h1, h2, h3, h4, h5⟩ := conditions_req60k
    simp [specWeightScore, fraudRules, List.filter, h1, h2, h3, h4, h5]
    norm_num [largeAmountRule]
  refine ⟨hspec, by decide, ?_⟩
  rw [show (calculateRisk req60k).score = JsNum.nan from by decide]
  simp

/-- **C3** — `routePayment` returns the lowest-ordered provider whose maximum
acceptable score strictly exceeds the given score and blocks (`none`) when no
provider qualifies; with the configured thresholds 0.4 (stripe) and 0.5
(paypal), a score of 0.39 routes to stripe, 0.4 to paypal and 0.5 is
blocked. -/
theorem routePayment_lowest_band_strict :
    (∀ score : JsNum, routePayment score = routePaymentSpec score) ∧
    routePayment (JsNum.num (39/100)) = some PaymentProvider.stripe ∧
    routePayment (JsNum.num (2/5)) = some PaymentProvider.paypal ∧
    routePayment (JsNum.num (1/2)) = none := by
  refine ⟨fun score => ?_, ?_, ?_, ?_⟩
  · cases score with
    | nan => rfl
    | posInf => rfl
    | negInf => rfl
    | num q =>
        simp only [routePayment, routePaymentSpec, providerBands, List.find?]
        by_cases h1 : jsLt (JsNum.num q)
            (JsNum.num providerConfig.stripe.maxRiskScore) <;>
          by_cases h2 : jsLt (JsNum.num q)
              (JsNum.num providerConfig.paypal.maxRiskScore) <;>
            simp [h1, h2]
  · have h1 : jsLt (JsNum.num (39/100))
        (JsNum.num providerConfig.stripe.maxRiskScore) = true := by
      simp [jsLt, providerConfig]
      norm_num
    simp only [routePayment, h1]
    rfl
  · have h1 : jsLt (JsNum.num (2/5))
        (JsNum.num providerConfig.stripe.maxRiskScore) = false := by
      simp [jsLt, providerConfig]
    have h2 : jsLt (JsNum.num (2/5))
        (JsNum.num providerConfig.paypal.maxRiskScore) = true := by
      simp [jsLt, providerConfig]
      norm_num
    simp only [routePayment, h1, h2]
    rfl
  · have h1 : jsLt (JsNum.num (1/2))
        (JsNum.num providerConfig.stripe.maxRiskScore) = false := by
      simp [jsLt, providerConfig]
      norm_num
    have h2 : jsLt (JsNum.num (1/2))
        (JsNum.num providerConfig.paypal.maxRiskScore) = false := by
      simp [jsLt, providerConfig]
    simp only [routePayment, h1, h2]
    rfl

/-- **C4** — The claim states that two explanation calls with identical
inputs return the same string and that the external generative-text call is
issued at most once per distinct input fingerprint, the second call being
served from a cache. The code has no cache: `generateDescriptionFromTags`
issues the external call unconditionally whenever the client is initialized.
Evaluating the embedded code on two identical calls (against an external
service whose successive answers differ): both calls hit the external path,
the call counter reaches 2, and the two returned strings differ — a code bug
relative to the repository's own geminiService tests, which mock `node-cache`
and assert cache hits and stores. -/
theorem generateDescription_no_cache_two_calls :
    geminiCall1.1 = Except.ok "Explanation A" ∧
    geminiCall2.1 = Except.ok "Explanation B" ∧
    geminiCall1.1 ≠ geminiCall2.1 ∧
    geminiCall2.2.externalCalls = 2 := by
  refine ⟨rfl, rfl, ?_, rfl⟩
  rw [show geminiCall1.1 = Except.ok "Explanation A" from rfl,
      show geminiCall2.1 = Except.ok "Explanation B" from rfl]
  simp

/-- **C5 counterexample** — The claim states that with the fallback flag
disabled every primary-path failure — the external call throwing, the client
being unavailable, or the external call returning empty text — surfaces a
hard error. Concretely, with the flag disabled: an external call resolving
with empty text still returns the templated simulated explanation (first
conjunct), and an uninitialized client also returns it (second conjunct);
neither is an error, contradicting the claim. -/
theorem fallbackDisabled_emptyText_no_error :
    (generateDescriptionFromTags false true genEmptyText
      { externalCalls := 0 } req60k (JsNum.num (3/10))
      (some PaymentProvider.stripe) TransactionStatus.success
      ["Large Amount"]).1 =
      Except.ok (generateSimulatedExplanation req60k (JsNum.num (3/10))
        (some PaymentProvider.stripe) TransactionStatus.success
        ["Large Amount"]) ∧
    (generateDescriptionFromTags false false genEmptyText
      { externalCalls := 0 } req60k (JsNum.num (3/10))
      (some PaymentProvider.stripe) TransactionStatus.success
      ["Large Amount"]).1 =
      Except.ok (generateSimulatedExplanation req60k (JsNum.num (3/10))
        (some PaymentProvider.stripe) TransactionStatus.success
        ["Large Amount"]) :=
  ⟨rfl, rfl⟩

/-- **C5 (amended)** — With the fallback flag disabled, only a rejection of
the external call surfaces the hard error
`LLM service unavailable and fallback disabled`; an uninitialized client and
an external call resolving with empty text still return the templated
simulated explanation, for every input. -/
theorem fallbackDisabled_error_only_on_throw :
    ∀ (request : ChargeRequest) (riskScore : JsNum)
      (provider : Option PaymentProvider) (status : TransactionStatus)
      (triggeredRules : List String) (st : GeminiState)
      (genOutcome : ℕ → Except Unit String),
      (generateDescriptionFromTags false true (fun _ => Except.error ()) st
        request riskScore provider status triggeredRules).1 =
        Except.error "LLM service unavailable and fallback disabled" ∧
      (generateDescriptionFromTags false false genOutcome st request riskScore
        provider status triggeredRules).1 =
        Except.ok (generateSimulatedExplanation request riskScore provider
          status triggeredRules) ∧
      (generateDescriptionFromTags false true (fun _ => Except.ok "") st
        request riskScore provider status triggeredRules).1 =
        Except.ok (generateSimulatedExplanation request riskScore provider
          status triggeredRules) :=
  fun _ _ _ _ _ _ _ => ⟨rfl, rfl, rfl⟩

/-- **C6 counterexample** — The claim states that the `Large Amount` rule
(weight 0.3) triggers exactly when the amount exceeds 50,000. At amount
150,000 the amount exceeds 50,000 yet the rule does not trigger (its
condition also requires the amount to be below 100,000); on that request only
`Very Large Amount` is in the triggered list. -/
theorem largeAmount_not_triggered_at_150000 :
    req150k.amount > 50000 ∧
    largeAmountRule.condition req150k = false ∧
    largeAmountRule.weight = 3/10 ∧
    (calculateRisk req150k).triggeredRules = ["Very Large Amount"] :=
  ⟨by decide, by decide, rfl, by decide⟩

/-- **C6 (amended)** — The `Large Amount` rule (weight 0.3) triggers exactly
when 50,000 < amount < 100,000. -/
theorem largeAmount_triggers_iff_between :
    ∀ request : ChargeRequest,
      largeAmountRule.condition request = true ↔
        (50000 < request.amount ∧ request.amount < 100000) := by
  intro request
  simp [largeAmountRule]

/-- **C7** — Every `ChargeResponse` the charge pipeline produces satisfies:
status is blocked iff the provider is `null`, and status is success or error
iff the provider is non-`null`. -/
theorem chargeResponse_status_provider_invariant :
    ∀ (transactionId : String) (randomValue : ℚ)
      (fallbackToSimulated clientInitialized : Bool)
      (genOutcome : ℕ → Except Unit String) (st : GeminiState)
      (request : ChargeRequest) (response : ChargeResponse),
      chargePipeline transactionId randomValue fallbackToSimulated
        clientInitialized genOutcome st request = Except.ok response →
      ((response.status = TransactionStatus.blocked ↔
        response.provider = none) ∧
       ((response.status = TransactionStatus.success ∨
         response.status = TransactionStatus.error) ↔
        response.provider ≠ none)) := by
  intro tid rand fb ci gen st req resp h
  simp only [chargePipeline] at h
  cases hroute : routePayment (calculateRisk req).score with
  | none =>
      rw [hroute] at h
      dsimp only at h
      cases hex : (generateDescriptionFromTags fb ci gen st req
          (calculateRisk req).score none TransactionStatus.blocked
          (calculateRisk req).triggeredRules).1 with
      | ok e =>
          rw [hex] at h
          cases h
          simp
      | error e => rw [hex] at h; cases h
  | some p =>
      rw [hroute] at h
      dsimp only at h
      by_cases hsim : simulatePayment p (JsNum.num (9/10)) rand
      · rw [if_pos hsim] at h
        cases hex : (generateDescriptionFromTags fb ci gen st req
            (calculateRisk req).score (some p) TransactionStatus.success
            (calculateRisk req).triggeredRules).1 with
        | ok e => rw [hex] at h; cases h; simp
        | error e => rw [hex] at h; cases h
      · rw [if_neg hsim] at h
        cases hex : (generateDescriptionFromTags fb ci gen st req
            (calculateRisk req).score (some p) TransactionStatus.error
            (calculateRisk req).triggeredRules).1 with
        | ok e => rw [hex] at h; cases h; simp
        | error e => rw [hex] at h; cases h

/-- Witness for C7: a concrete pipeline run (low-risk request, client
resolving with a fixed explanation, draw 0.5) produces `resp1`, and the
invariant holds for it. -/
theorem chargeResponse_status_provider_invariant_witness :
    ((resp1.status = TransactionStatus.blocked ↔ resp1.provider = none) ∧
     ((resp1.status = TransactionStatus.success ∨
       resp1.status = TransactionStatus.error) ↔ resp1.provider ≠ none)) :=
  chargeResponse_status_provider_invariant "t1" (1/2) true true genOk
    { externalCalls := 0 } req1k resp1 (by
      have hrisk : calculateRisk req1k =
          { score := JsNum.num 0, triggeredRules := [] } := by decide
      have hlt : jsLt (JsNum.num 0)
          (JsNum.num providerConfig.stripe.maxRiskScore) = true := by
        norm_num [jsLt, providerConfig]
      have hroute : routePayment (JsNum.num 0) = some PaymentProvider.stripe := by
        simp only [routePayment, hlt]
        rfl
      have hsim : simulatePayment PaymentProvider.stripe (JsNum.num (9/10))
          (1/2) = true := by
        norm_num [simulatePayment, jsMin, jsMax, jsLt]
      simp only [chargePipeline, hrisk, hroute, hsim]
      rfl)

/-- **C8** — Ledger round-trip on any store with pairwise-distinct keys (the
invariant every store reachable from the empty one has): after
`storeTransaction t`, `getTransactionById t.id` returns `t`; after
`deleteTransaction t.id`, it returns absent; the count equals the number of
distinct stored ids; and storing under an existing id leaves the count
unchanged (while a fresh id increments it). -/
theorem ledger_roundtrip :
    ∀ (store : TransactionStore) (t : Transaction),
      (store.map Prod.fst).Nodup →
      getTransactionById (storeTransaction store t) t.id = some t ∧
      getTransactionById (deleteTransaction store t.id).2 t.id = none ∧
      getTransactionCount store = ((store.map Prod.fst).dedup).length ∧
      getTransactionCount (storeTransaction store t) =
        (if hasTransaction store t.id then getTransactionCount store
         else getTransactionCount store + 1) := by
  intro store t hkeys
  refine ⟨?_, ?_, ?_, ?_⟩
  · unfold getTransactionById storeTransaction mapSet
    by_cases hmem : store.any (fun entry => entry.1 = t.id) = true
    · rw [if_pos hmem, find?_overwrite store t.id t hmem]
      rfl
    · rw [if_neg hmem,
        find?_append_missing store t.id t (Bool.not_eq_true _ ▸ hmem)]
      rfl
  · unfold getTransactionById deleteTransaction
    rw [find?_filter_ne]
    rfl
  · rw [List.Nodup.dedup hkeys, List.length_map]
    rfl
  · unfold getTransactionCount storeTransaction mapSet hasTransaction
    by_cases hmem : store.any (fun entry => entry.1 = t.id) = true
    · rw [if_pos hmem, if_pos hmem, List.length_map]
    · rw [if_neg hmem, if_neg hmem, List.length_append]
      rfl

/-- Witness for C8: the round-trip properties hold on the concrete singleton
store holding `txn1` under its own id. -/
theorem ledger_roundtrip_witness :
    getTransactionById (storeTransaction [("txn-123", txn1)] txn1) txn1.id =
      some txn1 ∧
    getTransactionById (deleteTransaction [("txn-123", txn1)] txn1.id).2
      txn1.id = none ∧
    getTransactionCount [("txn-123", txn1)] =
      (([("txn-123", txn1)].map Prod.fst).dedup).length ∧
    getTransactionCount (storeTransaction [("txn-123", txn1)] txn1) =
      (if hasTransaction [("txn-123", txn1)] txn1.id then
        getTransactionCount [("txn-123", txn1)]
       else getTransactionCount [("txn-123", txn1)] + 1) :=
  ledger_roundtrip [("txn-123", txn1)] txn1 (by decide)

/-- **C9** — `routePayment` on NaN or positive infinity returns the blocked
decision, and indeed neither value satisfies a strict `<` comparison against
any finite threshold. -/
theorem routePayment_nonNumeric_blocked :
    routePayment JsNum.nan = none ∧
    routePayment JsNum.posInf = none ∧
    ∀ threshold : ℚ,
      jsLt JsNum.nan (JsNum.num threshold) = false ∧
      jsLt JsNum.posInf (JsNum.num threshold) = false :=
  ⟨rfl, rfl, fun _ => ⟨rfl, rfl⟩⟩

/-- **C10** — `simulatePayment` is independent of its provider argument: for
any two providers and the same success rate and random draw the results
coincide, and for a finite success rate the outcome is exactly whether the
draw is strictly below the rate clamped to [0,1]. -/
theorem simulatePayment_provider_independent :
    ∀ (p1 p2 : PaymentProvider) (successRate : JsNum) (randomValue : ℚ),
      simulatePayment p1 successRate randomValue =
        simulatePayment p2 successRate randomValue ∧
      ∀ q : ℚ, simulatePayment p1 (JsNum.num q) randomValue =
        decide (randomValue < max 0 (min 1 q)) :=
  fun _ _ _ _ => ⟨rfl, fun _ => rfl⟩

end PaymentGateway
